import Mathlib

/-!
Shallow embedding of the cf_ai_devops_assistant worker and client, with
theorems checking the specification's claims against the code.

The embedding follows the TypeScript sources:
  - worker/src/durable-objects/ChatSession.ts  (session state, trimming, fetch)
  - worker/src/index.ts                        (stateless chat variant)
  - the router (handleChatRequest) and the browser chat API client
    (sendMessage retry loop).
-/

namespace DevOpsAssistant

/-! ## Data model: history entries (worker/src/env.ts) -/

inductive ChatRole
  | user
  | assistant
deriving DecidableEq, Repr

structure ChatHistoryEntry where
  role : ChatRole
  content : String
deriving DecidableEq, Repr

/-- HISTORY_LIMIT constant from ChatSession.ts line 6. -/
def HISTORY_LIMIT : Nat := 10

/-- Embedding of ChatSession.trimHistory: if the list is within the limit it
is returned unchanged, otherwise everything before the last HISTORY_LIMIT
entries is dropped. -/
def trimHistory (history : List ChatHistoryEntry) : List ChatHistoryEntry :=
  if history.length ≤ HISTORY_LIMIT then history
  else history.drop (history.length - HISTORY_LIMIT)

/-- Specification-side helper: the last n entries of a list. -/
def lastN (n : Nat) (l : List α) : List α :=
  l.drop (l.length - n)

/-! ## Session state (ChatSession durable object) -/

structure SessionState where
  historyCache : Option (List ChatHistoryEntry)
  stored : Option (List ChatHistoryEntry)
deriving DecidableEq, Repr

/-- Embedding of ChatSession.getHistory: return the cache if materialized,
otherwise load from storage (empty when absent) and materialize the cache. -/
def getHistory (s : SessionState) : List ChatHistoryEntry × SessionState :=
  match s.historyCache with
  | some h => (h, s)
  | none =>
      let h := s.stored.getD []
      (h, { s with historyCache := some h })

/-- Embedding of ChatSession.saveHistory: trim, update the in-memory cache,
then put the same list to storage. -/
def saveHistory (s : SessionState) (history : List ChatHistoryEntry) : SessionState :=
  { s with
    historyCache := some (trimHistory history)
    stored := some (trimHistory history) }

/-- The transcript at rest: the stored value, empty when absent. -/
def storedTranscript (s : SessionState) : List ChatHistoryEntry :=
  s.stored.getD []

/-- The transcript the session would serve next: the cache if materialized,
else the stored value. -/
def effectiveHistory (s : SessionState) : List ChatHistoryEntry :=
  s.historyCache.getD (s.stored.getD [])

/-! ## JavaScript string trim -/

/-- Characters treated as whitespace by the JavaScript trim used on message
and sessionId fields (the common WhiteSpace and LineTerminator characters). -/
def isJsWhitespace (c : Char) : Bool :=
  c = ' ' || c = '\t' || c = '\n' || c = '\r' ||
    c = Char.ofNat 11 || c = Char.ofNat 12 || c = Char.ofNat 0xa0 ||
    c = Char.ofNat 0x2028 || c = Char.ofNat 0x2029 || c = Char.ofNat 0xfeff

/-- Embedding of String.prototype.trim: strip leading and trailing
whitespace. -/
def jsTrim (s : String) : String :=
  ⟨((s.data.dropWhile isJsWhitespace).reverse.dropWhile isJsWhitespace).reverse⟩

/-! ## Model Gateway results (ChatSession.generateAIResponse) -/

/-- A non-stream value returned by the AI binding, as inspected by
extractResponseText: a plain string, an object with optional string fields
response and output_text, or anything else. -/
inductive AiValue
  | str (s : String)
  | obj (response output_text : Option String)
  | other
deriving DecidableEq, Repr

/-- Embedding of extractResponseText (ChatSession.ts lines 155 to 168). -/
def extractResponseText : AiValue → String
  | .str s => s
  | .obj (some r) _ => r
  | .obj none (some t) => t
  | .obj none none => "I was unable to generate a response."
  | .other => "I was unable to generate a response."

/-- Outcome of the awaited AI.run call inside generateAIResponse: a byte
stream (given as its list of text chunks, with a flag telling whether the
background collection of the teed secondary copy later completes normally),
a single-shot value, or a thrown error. -/
inductive AiRunResult
  | stream (chunks : List String) (collectOk : Bool)
  | value (v : AiValue)
  | failure
deriving DecidableEq, Repr

/-- Result of generateAIResponse: the chunks of the stream handed back to
the caller, and the transcript promise (none when the background collection
rejects). -/
structure AiStreamResult where
  streamChunks : List String
  transcript : Option String
deriving DecidableEq, Repr

/-- Embedding of ChatSession.generateAIResponse outcome (lines 134 to 151):
a stream result is teed, with the transcript collected from the secondary
copy; a non-stream value is wrapped in a one-shot stream emitting the
extracted text once, with the transcript resolved to that same text. -/
def generateAIResponse (ai : AiRunResult) : Option AiStreamResult :=
  match ai with
  | .failure => none
  | .stream chunks ok =>
      some ⟨chunks, if ok then some (String.join chunks) else none⟩
  | .value v => some ⟨[extractResponseText v], some (extractResponseText v)⟩

/-! ## ChatSession.fetch -/

structure ChatPayload where
  message : Option String
deriving DecidableEq, Repr

inductive ResponseBody
  | streamBody (chunks : List String)
  | jsonError (message : String)
deriving DecidableEq, Repr

structure FetchResult where
  status : Nat
  body : ResponseBody
  state : SessionState
  gatewayCalled : Bool
deriving DecidableEq, Repr

/-- Embedding of ChatSession.fetch (lines 33 to 87), with the background
commit of the transcript promise (lines 60 to 69) folded in: when the
transcript resolves, the user and assistant entries are appended, trimmed,
and saved; when it rejects, the failure is only logged and the state is
left as it was. The payload is none when the request body is not valid
JSON. -/
def ChatSession.fetch (s : SessionState) (method path : String)
    (payload : Option ChatPayload) (ai : AiRunResult) : FetchResult :=
  if method ≠ "POST" then ⟨405, .jsonError "Method not allowed", s, false⟩
  else if path ≠ "/chat" then ⟨404, .jsonError "Not found", s, false⟩
  else
    match payload with
    | none => ⟨400, .jsonError "Invalid JSON body.", s, false⟩
    | some p =>
        let message := (p.message.map jsTrim).getD ""
        if message = "" then
          ⟨400, .jsonError "message is required.", s, false⟩
        else
          let loaded := getHistory s
          let history := loaded.1
          let s1 := loaded.2
          match generateAIResponse ai with
          | none => ⟨502, .jsonError "AI generation failed.", s1, true⟩
          | some r =>
              let s2 :=
                match r.transcript with
                | some reply =>
                    saveHistory s1 (trimHistory
                      (history ++ [⟨.user, message⟩, ⟨.assistant, reply⟩]))
                | none => s1
              ⟨200, .streamBody r.streamChunks, s2, true⟩

/-! ## Runs of accepted exchanges -/

/-- One exchange: the raw message sent, together with the chunk list the
Gateway streams back for it. -/
def runSession : SessionState → List (String × List String) → SessionState
  | s, [] => s
  | s, e :: rest =>
      runSession
        (ChatSession.fetch s "POST" "/chat" (some ⟨some e.1⟩)
          (.stream e.2 true)).state rest

/-- Arrival-ordered flattening of user and assistant entry pairs. -/
def flatPairs : List (String × String) → List ChatHistoryEntry
  | [] => []
  | e :: rest => ⟨.user, e.1⟩ :: ⟨.assistant, e.2⟩ :: flatPairs rest

/-! ## Tee over a byte stream (ChatSession.ts aiResult.tee and collectText)

The teed pair is modelled as two independent cursors over the shared chunk
sequence; a schedule of booleans says which copy performs the next read
(true reads the primary copy, false the secondary one). A read past the end
reports done and changes nothing, like reader.read() on a closed stream. -/

structure TeeState where
  chunks : List (List Nat)
  readA : Nat
  accA : List Nat
  readB : Nat
  accB : List Nat
deriving DecidableEq, Repr

def teeInit (chunks : List (List Nat)) : TeeState := ⟨chunks, 0, [], 0, []⟩

def teeStep (s : TeeState) (side : Bool) : TeeState :=
  if side then
    match s.chunks[s.readA]? with
    | some c => { s with readA := s.readA + 1, accA := s.accA ++ c }
    | none => s
  else
    match s.chunks[s.readB]? with
    | some c => { s with readB := s.readB + 1, accB := s.accB ++ c }
    | none => s

def teeRun (s : TeeState) (schedule : List Bool) : TeeState :=
  schedule.foldl teeStep s

/-- Concatenation of a chunk sequence into one byte sequence, as the
full read of either teed copy produces it. -/
def bytesOf : List (List Nat) → List Nat
  | [] => []
  | c :: rest => c ++ bytesOf rest

/-! ## Stateless chat variant (worker/src/index.ts) -/

/-- A value supplied for a numeric option in the request body: an actual
number (modelled as a rational), or NaN. Absent fields and values of
non-number type are modelled as none at the use sites. -/
inductive JsNum
  | num (q : ℚ)
  | nan
deriving DecidableEq

/-- Embedding of clamp (index.ts lines 174 to 179): non-numbers and NaN
give undefined; a number is pinned into the range by Math.min and
Math.max. -/
def clamp (value : Option JsNum) (lo hi : ℚ) : Option ℚ :=
  match value with
  | some (.num q) => some (min (max q lo) hi)
  | some .nan => none
  | none => none

/-- A message of the request body before normalization: the role and the
content are arbitrary, possibly absent, values. -/
structure ChatMessageIn where
  role : Option String
  content : Option String
deriving DecidableEq, Repr

structure StatelessBody where
  messages : Option (List ChatMessageIn)
  temperature : Option JsNum
  max_tokens : Option JsNum
  top_p : Option JsNum
deriving DecidableEq

/-- The temperature passed to AI.run (index.ts line 99). -/
def resolvedTemperature (b : StatelessBody) : ℚ :=
  (clamp b.temperature 0 1).getD (3 / 10)

/-- The max_tokens passed to AI.run (index.ts line 100). -/
def resolvedMaxTokens (b : StatelessBody) : ℚ :=
  (clamp b.max_tokens 32 1024).getD 600

/-- The top_p passed to AI.run (index.ts line 101). -/
def resolvedTopP (b : StatelessBody) : ℚ :=
  (clamp b.top_p 0 1).getD (9 / 10)

/-! ## Request router (handleChatRequest) -/

structure RouterBody where
  message : Option String
  sessionId : Option String
deriving DecidableEq, Repr

structure RouterResult where
  status : Nat
  body : ResponseBody
  sessionResolved : Bool
deriving DecidableEq, Repr

/-- Embedding of handleChatRequest: JSON parse failure and the two field
validations happen before the Durable Object session is resolved; only a
valid request reaches idFromName and stub.fetch, whose response is proxied
through (given here by its status and body). -/
def handleChatRequest (body : Option RouterBody) (doStatus : Nat)
    (doBody : ResponseBody) : RouterResult :=
  match body with
  | none => ⟨400, .jsonError "Invalid JSON body.", false⟩
  | some b =>
      let message := (b.message.map jsTrim).getD ""
      let sessionId := (b.sessionId.map jsTrim).getD ""
      if message = "" then ⟨400, .jsonError "message is required.", false⟩
      else if sessionId = "" then
        ⟨400, .jsonError "sessionId is required.", false⟩
      else ⟨doStatus, doBody, true⟩

/-! ## Message normalization in the stateless variant -/

inductive TurnRole
  | user
  | assistant
deriving DecidableEq, Repr

structure DialogueTurn where
  role : TurnRole
  content : String
deriving DecidableEq, Repr

/-- Embedding of normalizeRole: only the literal role assistant survives;
every other role, including system, tool and absent, becomes user. -/
def normalizeRole (role : Option String) : TurnRole :=
  if role = some "assistant" then .assistant else .user

/-- Embedding of normalizeMessages (index.ts lines 124 to 140): a missing
or non-array messages field gives the empty list; otherwise each message is
mapped to its normalized role and trimmed content (absent content coerces
to the empty string) and entries with empty content are dropped. -/
def normalizeMessages (messages : Option (List ChatMessageIn)) :
    List DialogueTurn :=
  match messages with
  | none => []
  | some ms =>
      (ms.map fun m =>
        (⟨normalizeRole m.role, jsTrim (m.content.getD "")⟩ : DialogueTurn)).filter
        fun t => t.content.length != 0

/-- Outcome of the stateless handleChat (index.ts lines 64 to 122), with
the AI call abstracted by the assistant text it produces (none when the
invocation throws). -/
def handleChat (payload : Option StatelessBody) (aiText : Option String) :
    Nat × Option String :=
  match payload with
  | none => (400, none)
  | some body =>
      if (normalizeMessages body.messages).length = 0 then (400, none)
      else
        match aiText with
        | none => (502, none)
        | some t => (200, some t)

/-! ## Browser chat API client: sendMessage retry loop -/

/-- The kind of exception observed by the retry loop in sendMessage. -/
inductive ClientErrorKind
  | fetchTypeError
  | abortError
  | otherError
deriving DecidableEq, Repr

/-- Embedding of isRetryableError (client lines 79 to 101): a truthy status
code contained in the retryable list is retryable; otherwise, when network
retry is enabled, a fetch TypeError is retryable and an AbortError is
explicitly not; everything else is not retryable. -/
def isRetryableError (error : Option ClientErrorKind) (statusCode : Option Nat)
    (retryableStatusCodes : List Nat) (retryOnNetworkError : Bool) : Bool :=
  if (statusCode.getD 0 != 0) &&
      retryableStatusCodes.contains (statusCode.getD 0) then true
  else if retryOnNetworkError then
    match error with
    | some .fetchTypeError => true
    | some .abortError => false
    | _ => false
  else false

/-- What the stubbed transport does on one attempt: a successful streaming
response, a non-ok HTTP response, a thrown network TypeError, or an abort
fired by the per-attempt timeout controller. -/
inductive AttemptOutcome
  | ok
  | httpError (status : Nat)
  | networkError
  | abortTimeout
deriving DecidableEq, Repr

inductive SendResult
  | success (sleeps : List Nat)
  | timeoutError (sleeps : List Nat)
  | httpFailure (status : Nat) (sleeps : List Nat)
  | networkFailure (sleeps : List Nat)
  | transportExhausted (sleeps : List Nat)
deriving DecidableEq, Repr

/-- Embedding of the retry loop in sendMessage (client lines 215 to 292),
run against a stub transport given as the list of outcomes of successive
attempts. The sleeps list records each backoff delay performed, in order:
the code sleeps retryDelay * (attempt + 1) milliseconds before a retry. An
abort fired by the timeout controller is rethrown as the distinct timeout
error without consulting the retry predicate. transportExhausted only
covers the stub running out of scripted outcomes. -/
def sendLoop (maxRetries retryDelay : Nat) (codes : List Nat)
    (retryOnNetwork : Bool) :
    List AttemptOutcome → Nat → Option Nat → List Nat → SendResult
  | [], _, _, sleeps => .transportExhausted sleeps
  | o :: rest, attempt, lastStatus, sleeps =>
      match o with
      | .ok => .success sleeps
      | .httpError s =>
          if attempt < maxRetries ∧
              isRetryableError none (some s) codes retryOnNetwork = true then
            sendLoop maxRetries retryDelay codes retryOnNetwork rest
              (attempt + 1) (some s) (sleeps ++ [retryDelay * (attempt + 1)])
          else .httpFailure s sleeps
      | .networkError =>
          if attempt < maxRetries ∧
              isRetryableError (some .fetchTypeError) lastStatus codes
                retryOnNetwork = true then
            sendLoop maxRetries retryDelay codes retryOnNetwork rest
              (attempt + 1) lastStatus (sleeps ++ [retryDelay * (attempt + 1)])
          else .networkFailure sleeps
      | .abortTimeout => .timeoutError sleeps

/-- sendMessage with the default configuration: 3 retries, 1000 ms base
delay, retryable statuses 500, 502, 503, 504, network retry enabled. -/
def defaultSend (outcomes : List AttemptOutcome) : SendResult :=
  sendLoop 3 1000 [500, 502, 503, 504] true outcomes 0 none []

/-! ## Theorems -/

theorem trimHistory_eq_lastN (h : List ChatHistoryEntry) :
    trimHistory h = lastN HISTORY_LIMIT h := by
  unfold trimHistory lastN
  by_cases hl : h.length ≤ HISTORY_LIMIT
  · have hz : h.length - HISTORY_LIMIT = 0 := by omega
    simp [hl, hz]
  · simp [hl]

theorem length_lastN (n : Nat) (l : List α) :
    (lastN n l).length = min n l.length := by
  unfold lastN
  simp [List.length_drop]
  omega

/-- Key lemma: taking the last n of (last n of xs, followed by ys) is the
same as taking the last n of (xs followed by ys). This is what makes the
fold of trimmed commits equal one global trim. -/
theorem lastN_append_lastN (n : Nat) (xs ys : List α) :
    lastN n (lastN n xs ++ ys) = lastN n (xs ++ ys) := by
  unfold lastN
  rcases le_or_lt xs.length n with h | h
  · have hz : xs.length - n = 0 := by omega
    simp [hz]
  · have hlen : (xs.drop (xs.length - n)).length = n := by
      simp [List.length_drop]
      omega
    have e1 : (xs.drop (xs.length - n) ++ ys).length - n = ys.length := by
      rw [List.length_append, hlen]
      omega
    rw [e1, List.drop_append_eq_append_drop, List.drop_append_eq_append_drop,
      List.drop_drop]
    have e2 : xs.length - n + ys.length = (xs ++ ys).length - n := by
      rw [List.length_append]
      omega
    have e3 : ys.length - (xs.drop (xs.length - n)).length =
        (xs ++ ys).length - n - xs.length := by
      rw [hlen, List.length_append]
      omega
    rw [e2, e3]

theorem lastN_idem (n : Nat) (l : List α) :
    lastN n (lastN n l) = lastN n l := by
  have h := lastN_append_lastN n l []
  simpa using h

/-! ## Lemmas about one accepted exchange -/

theorem fetch_step_state (xs : List ChatHistoryEntry) (m : String)
    (chunks : List String) (hm : jsTrim m ≠ "") :
    (ChatSession.fetch
        ⟨some (lastN HISTORY_LIMIT xs), some (lastN HISTORY_LIMIT xs)⟩
        "POST" "/chat" (some ⟨some m⟩) (.stream chunks true)).state =
      ⟨some (lastN HISTORY_LIMIT
          (xs ++ [⟨.user, jsTrim m⟩, ⟨.assistant, String.join chunks⟩])),
        some (lastN HISTORY_LIMIT
          (xs ++ [⟨.user, jsTrim m⟩, ⟨.assistant, String.join chunks⟩]))⟩ := by
  simp [ChatSession.fetch, hm, getHistory, generateAIResponse, saveHistory,
    trimHistory_eq_lastN, lastN_append_lastN, lastN_idem]

theorem runSession_lastN (exchanges : List (String × List String)) :
    ∀ xs : List ChatHistoryEntry,
      (∀ e ∈ exchanges, jsTrim e.1 ≠ "") →
      runSession
          ⟨some (lastN HISTORY_LIMIT xs), some (lastN HISTORY_LIMIT xs)⟩
          exchanges =
        ⟨some (lastN HISTORY_LIMIT
            (xs ++ flatPairs (exchanges.map fun e => (jsTrim e.1, String.join e.2)))),
          some (lastN HISTORY_LIMIT
            (xs ++ flatPairs (exchanges.map fun e => (jsTrim e.1, String.join e.2))))⟩ := by
  induction exchanges with
  | nil =>
      intro xs _
      simp [runSession, flatPairs]
  | cons e rest ih =>
      intro xs hvalid
      have h1 : jsTrim e.1 ≠ "" := hvalid e (by simp)
      have hrest : ∀ x ∈ rest, jsTrim x.1 ≠ "" := by
        intro x hx
        exact hvalid x (by simp [hx])
      rw [runSession, fetch_step_state xs e.1 e.2 h1]
      have h2 := ih (xs ++
        [{ role := .user, content := jsTrim e.1 },
          { role := .assistant, content := String.join e.2 }]) hrest
      rw [h2]
      simp [flatPairs, List.append_assoc]

/-- C1: for every sequence of accepted exchanges on one session (each
background collection completing normally), the stored transcript after all
commits is the last HISTORY_LIMIT entries of the arrival-ordered flattening
of user and assistant entry pairs, oldest entries evicted first. -/
theorem stored_transcript_after_exchanges
    (exchanges : List (String × List String))
    (hvalid : ∀ e ∈ exchanges, jsTrim e.1 ≠ "") :
    storedTranscript (runSession ⟨none, none⟩ exchanges) =
      lastN HISTORY_LIMIT
        (flatPairs (exchanges.map fun e => (jsTrim e.1, String.join e.2))) := by
  cases exchanges with
  | nil =>
      simp [runSession, storedTranscript, flatPairs, lastN]
  | cons e rest =>
      have h1 : jsTrim e.1 ≠ "" := hvalid e (by simp)
      have hrest : ∀ x ∈ rest, jsTrim x.1 ≠ "" := by
        intro x hx
        exact hvalid x (by simp [hx])
      have hpair : ([⟨.user, jsTrim e.1⟩, ⟨.assistant, String.join e.2⟩] :
          List ChatHistoryEntry) =
          lastN HISTORY_LIMIT [⟨.user, jsTrim e.1⟩, ⟨.assistant, String.join e.2⟩] := by
        simp [lastN, HISTORY_LIMIT]
      have hstep : (ChatSession.fetch ⟨none, none⟩ "POST" "/chat"
          (some ⟨some e.1⟩) (.stream e.2 true)).state =
          ⟨some (lastN HISTORY_LIMIT
              [⟨.user, jsTrim e.1⟩, ⟨.assistant, String.join e.2⟩]),
            some (lastN HISTORY_LIMIT
              [⟨.user, jsTrim e.1⟩, ⟨.assistant, String.join e.2⟩])⟩ := by
        simp [ChatSession.fetch, h1, getHistory, generateAIResponse, saveHistory,
          trimHistory_eq_lastN, lastN_idem, ← hpair]
      rw [runSession, hstep,
        runSession_lastN rest [⟨.user, jsTrim e.1⟩, ⟨.assistant, String.join e.2⟩] hrest]
      simp [storedTranscript, flatPairs]

/-- C2: saveHistory always commits the trimmed list to both the cache and
the store; the committed transcript has length at most HISTORY_LIMIT; the
trim keeps a suffix (only the oldest entries at the head are removed); and
when the list is within the limit nothing is removed at all. -/
theorem saveHistory_bounded_fifo (s : SessionState)
    (history : List ChatHistoryEntry) :
    (saveHistory s history).stored = some (trimHistory history) ∧
    (saveHistory s history).historyCache = some (trimHistory history) ∧
    (trimHistory history).length ≤ HISTORY_LIMIT ∧
    (trimHistory history).IsSuffix history ∧
    (history.length ≤ HISTORY_LIMIT → trimHistory history = history) := by
  refine ⟨rfl, rfl, ?_, ?_, ?_⟩
  · rw [trimHistory_eq_lastN, length_lastN]
    omega
  · rw [trimHistory_eq_lastN]
    exact List.drop_suffix _ _
  · intro hle
    unfold trimHistory
    simp [hle]

theorem getLast?_lastN_concat (n : Nat) (hn : 0 < n) (l : List α) (x : α) :
    (lastN n (l ++ [x])).getLast? = some x := by
  unfold lastN
  have hle : (l ++ [x]).length - n ≤ l.length := by
    simp [List.length_append]
    omega
  rw [List.drop_append_eq_append_drop]
  have hz : (l ++ [x]).length - n - l.length = 0 := by omega
  rw [hz]
  simp

/-- C3: when the background collection of the secondary stream copy fails,
the exchange leaves the stored transcript and the transcript the session
serves unchanged (no user entry, assistant entry, or partial text is
appended), while the primary stream already returned to the caller still
carries the full chunk sequence with status 200. -/
theorem collection_failure_leaves_transcript (s : SessionState) (m : String)
    (chunks : List String) (hm : jsTrim m ≠ "") :
    (ChatSession.fetch s "POST" "/chat" (some ⟨some m⟩)
        (.stream chunks false)).state.stored = s.stored ∧
    effectiveHistory (ChatSession.fetch s "POST" "/chat" (some ⟨some m⟩)
        (.stream chunks false)).state = effectiveHistory s ∧
    (ChatSession.fetch s "POST" "/chat" (some ⟨some m⟩)
        (.stream chunks false)).status = 200 ∧
    (ChatSession.fetch s "POST" "/chat" (some ⟨some m⟩)
        (.stream chunks false)).body = .streamBody chunks := by
  rcases s with ⟨hc, st⟩
  cases hc <;>
    simp [ChatSession.fetch, hm, getHistory, generateAIResponse, effectiveHistory]

theorem collection_failure_leaves_transcript_witness :
    (ChatSession.fetch ⟨none, some [⟨.user, "hi"⟩, ⟨.assistant, "yo"⟩]⟩
        "POST" "/chat" (some ⟨some "hello"⟩)
        (.stream ["a", "b"] false)).state.stored =
      (⟨none, some [⟨.user, "hi"⟩, ⟨.assistant, "yo"⟩]⟩ : SessionState).stored ∧
    effectiveHistory (ChatSession.fetch
        ⟨none, some [⟨.user, "hi"⟩, ⟨.assistant, "yo"⟩]⟩
        "POST" "/chat" (some ⟨some "hello"⟩) (.stream ["a", "b"] false)).state =
      effectiveHistory ⟨none, some [⟨.user, "hi"⟩, ⟨.assistant, "yo"⟩]⟩ ∧
    (ChatSession.fetch ⟨none, some [⟨.user, "hi"⟩, ⟨.assistant, "yo"⟩]⟩
        "POST" "/chat" (some ⟨some "hello"⟩)
        (.stream ["a", "b"] false)).status = 200 ∧
    (ChatSession.fetch ⟨none, some [⟨.user, "hi"⟩, ⟨.assistant, "yo"⟩]⟩
        "POST" "/chat" (some ⟨some "hello"⟩)
        (.stream ["a", "b"] false)).body = .streamBody ["a", "b"] :=
  collection_failure_leaves_transcript _ "hello" ["a", "b"] (by decide)

/-- C5: a request whose message field is absent, or empty or whitespace-only
after trimming, is rejected with a 400 validation error before the Gateway
is invoked, and the session state is returned unchanged. -/
theorem empty_message_rejected (s : SessionState) (p : ChatPayload)
    (ai : AiRunResult)
    (hm : p.message = none ∨ ∃ msg, p.message = some msg ∧ jsTrim msg = "") :
    ChatSession.fetch s "POST" "/chat" (some p) ai =
      ⟨400, .jsonError "message is required.", s, false⟩ := by
  rcases hm with hnone | ⟨msg, hmsg, htrim⟩
  · simp [ChatSession.fetch, hnone]
  · simp [ChatSession.fetch, hmsg, htrim]

theorem empty_message_rejected_witness :
    ChatSession.fetch ⟨some [⟨.user, "old"⟩], some [⟨.user, "old"⟩]⟩
        "POST" "/chat" (some ⟨some "   "⟩) (.stream ["x"] true) =
      ⟨400, .jsonError "message is required.",
        ⟨some [⟨.user, "old"⟩], some [⟨.user, "old"⟩]⟩, false⟩ :=
  empty_message_rejected _ _ _ (Or.inr ⟨"   ", rfl, by decide⟩)

/-- C8: when the Gateway returns a single-shot value instead of a stream,
the response is a one-shot stream emitting exactly the extracted text once,
and the assistant entry committed to the transcript carries that same text. -/
theorem single_shot_fallback (s : SessionState) (m : String) (v : AiValue)
    (hm : jsTrim m ≠ "") :
    (ChatSession.fetch s "POST" "/chat" (some ⟨some m⟩) (.value v)).status = 200 ∧
    (ChatSession.fetch s "POST" "/chat" (some ⟨some m⟩) (.value v)).body =
      .streamBody [extractResponseText v] ∧
    (storedTranscript
        (ChatSession.fetch s "POST" "/chat" (some ⟨some m⟩) (.value v)).state).getLast? =
      some ⟨.assistant, extractResponseText v⟩ := by
  have hlim : 0 < HISTORY_LIMIT := by decide
  rcases s with ⟨hc, st⟩
  cases hc <;>
    simp [ChatSession.fetch, hm, getHistory, generateAIResponse, saveHistory,
      storedTranscript, trimHistory_eq_lastN, lastN_idem] <;>
    rw [show ∀ (h : List ChatHistoryEntry) (u a : ChatHistoryEntry),
        h ++ [u, a] = (h ++ [u]) ++ [a] by intro h u a; simp] <;>
    exact getLast?_lastN_concat HISTORY_LIMIT hlim _ _

theorem single_shot_fallback_witness :
    (ChatSession.fetch ⟨none, none⟩ "POST" "/chat" (some ⟨some "ship it"⟩)
        (.value (.obj (some "done") none))).status = 200 ∧
    (ChatSession.fetch ⟨none, none⟩ "POST" "/chat" (some ⟨some "ship it"⟩)
        (.value (.obj (some "done") none))).body =
      .streamBody [extractResponseText (.obj (some "done") none)] ∧
    (storedTranscript
        (ChatSession.fetch ⟨none, none⟩ "POST" "/chat" (some ⟨some "ship it"⟩)
          (.value (.obj (some "done") none))).state).getLast? =
      some ⟨.assistant, extractResponseText (.obj (some "done") none)⟩ :=
  single_shot_fallback ⟨none, none⟩ "ship it" (.obj (some "done") none) (by decide)

theorem stored_transcript_after_exchanges_witness :
    storedTranscript (runSession ⟨none, none⟩
        [("one", ["1a", "1b"]), ("two", ["2"]), ("three", ["3"]),
          ("four", ["4"]), ("five", ["5"]), ("six", ["6"])]) =
      lastN HISTORY_LIMIT (flatPairs
        (([("one", ["1a", "1b"]), ("two", ["2"]), ("three", ["3"]),
          ("four", ["4"]), ("five", ["5"]), ("six", ["6"])] :
            List (String × List String)).map
          fun e => (jsTrim e.1, String.join e.2))) :=
  stored_transcript_after_exchanges _ (by decide)

theorem bytesOf_append (xs ys : List (List Nat)) :
    bytesOf (xs ++ ys) = bytesOf xs ++ bytesOf ys := by
  induction xs with
  | nil => simp [bytesOf]
  | cons c rest ih => simp [bytesOf, ih]

theorem bytesOf_take_succ (l : List (List Nat)) (i : Nat) (c : List Nat)
    (h : l[i]? = some c) :
    bytesOf (l.take (i + 1)) = bytesOf (l.take i) ++ c := by
  rw [List.take_succ, h]
  simp [bytesOf_append, bytesOf]

theorem teeStep_invariant (s : TeeState) (side : Bool)
    (hA : s.accA = bytesOf (s.chunks.take s.readA))
    (hB : s.accB = bytesOf (s.chunks.take s.readB)) :
    (teeStep s side).chunks = s.chunks ∧
    (teeStep s side).accA = bytesOf (s.chunks.take (teeStep s side).readA) ∧
    (teeStep s side).accB = bytesOf (s.chunks.take (teeStep s side).readB) := by
  unfold teeStep
  cases side
  · rcases hg : s.chunks[s.readB]? with _ | c
    · simp [hg, hA, hB]
    · simp [hg, hA, hB, bytesOf_take_succ s.chunks s.readB c hg]
  · rcases hg : s.chunks[s.readA]? with _ | c
    · simp [hg, hA, hB]
    · simp [hg, hA, hB, bytesOf_take_succ s.chunks s.readA c hg]

theorem teeRun_invariant (schedule : List Bool) :
    ∀ s : TeeState,
      s.accA = bytesOf (s.chunks.take s.readA) →
      s.accB = bytesOf (s.chunks.take s.readB) →
      (teeRun s schedule).chunks = s.chunks ∧
      (teeRun s schedule).accA =
        bytesOf (s.chunks.take (teeRun s schedule).readA) ∧
      (teeRun s schedule).accB =
        bytesOf (s.chunks.take (teeRun s schedule).readB) := by
  induction schedule with
  | nil =>
      intro s hA hB
      exact ⟨rfl, hA, hB⟩
  | cons side rest ih =>
      intro s hA hB
      obtain ⟨sc, sA, sB⟩ := teeStep_invariant s side hA hB
      have hrun : teeRun s (side :: rest) = teeRun (teeStep s side) rest := rfl
      obtain ⟨rc, rA, rB⟩ := ih (teeStep s side)
        (by rw [sA, sc]) (by rw [sB, sc])
      rw [hrun]
      refine ⟨rc.trans sc, ?_, ?_⟩
      · rw [rA, sc]
      · rw [rB, sc]

/-- C4: for every chunk sequence produced by the Gateway and every
interleaving of reads of the two teed copies, once each copy has been read
to the end the two accumulated byte sequences are both exactly the
concatenation of the Gateway's output, hence byte-identical to each other. -/
theorem tee_reads_byte_identical (chunks : List (List Nat))
    (schedule : List Bool)
    (hA : (teeRun (teeInit chunks) schedule).readA = chunks.length)
    (hB : (teeRun (teeInit chunks) schedule).readB = chunks.length) :
    (teeRun (teeInit chunks) schedule).accA = bytesOf chunks ∧
    (teeRun (teeInit chunks) schedule).accB = bytesOf chunks ∧
    (teeRun (teeInit chunks) schedule).accA =
      (teeRun (teeInit chunks) schedule).accB := by
  obtain ⟨hc, hiA, hiB⟩ := teeRun_invariant schedule (teeInit chunks)
    (by simp [teeInit, bytesOf]) (by simp [teeInit, bytesOf])
  have hcc : (teeInit chunks).chunks = chunks := rfl
  rw [hcc] at hiA hiB
  rw [hA, List.take_length] at hiA
  rw [hB, List.take_length] at hiB
  exact ⟨hiA, hiB, hiA.trans hiB.symm⟩

theorem tee_reads_byte_identical_witness :
    (teeRun (teeInit [[1, 2], [3], [4, 5, 6]])
        [false, false, true, false, true, true]).accA =
      bytesOf [[1, 2], [3], [4, 5, 6]] ∧
    (teeRun (teeInit [[1, 2], [3], [4, 5, 6]])
        [false, false, true, false, true, true]).accB =
      bytesOf [[1, 2], [3], [4, 5, 6]] ∧
    (teeRun (teeInit [[1, 2], [3], [4, 5, 6]])
        [false, false, true, false, true, true]).accA =
      (teeRun (teeInit [[1, 2], [3], [4, 5, 6]])
        [false, false, true, false, true, true]).accB :=
  tee_reads_byte_identical [[1, 2], [3], [4, 5, 6]]
    [false, false, true, false, true, true] (by decide) (by decide)

theorem clamp_getD_bounds (v : Option JsNum) (lo hi d : ℚ) (hlo : lo ≤ d)
    (hd : d ≤ hi) (hlohi : lo ≤ hi) :
    lo ≤ (clamp v lo hi).getD d ∧ (clamp v lo hi).getD d ≤ hi := by
  rcases v with _ | j
  · simpa [clamp] using ⟨hlo, hd⟩
  · cases j with
    | num q =>
        simp only [clamp, Option.getD_some]
        exact ⟨le_min (le_max_right q lo) hlohi, min_le_right _ _⟩
    | nan => simpa [clamp] using ⟨hlo, hd⟩

/-- C6 counterexample: the out-of-range temperature 5 resolves to the range
boundary 1, not to the default 0.3 that the claim says out-of-range values
fall back to. -/
theorem out_of_range_temperature_not_default :
    resolvedTemperature ⟨none, some (.num 5), none, none⟩ = 1 ∧
    (1 : ℚ) ≠ 3 / 10 := by
  constructor
  · norm_num [resolvedTemperature, clamp]
  · norm_num

/-- C6 amended: temperature, max_tokens and top_p are each resolved
independently of the other fields and never produce an error: the resolved
value always lies in the valid range; an absent, non-numeric or NaN value
falls back to the default (0.3, 600, 0.9); a numeric value is clamped into
the range, so an out-of-range number is pinned to the nearer bound rather
than replaced by the default. -/
theorem override_resolution (b : StatelessBody) :
    (0 ≤ resolvedTemperature b ∧ resolvedTemperature b ≤ 1) ∧
    (32 ≤ resolvedMaxTokens b ∧ resolvedMaxTokens b ≤ 1024) ∧
    (0 ≤ resolvedTopP b ∧ resolvedTopP b ≤ 1) ∧
    ((b.temperature = none ∨ b.temperature = some .nan) →
      resolvedTemperature b = 3 / 10) ∧
    ((b.max_tokens = none ∨ b.max_tokens = some .nan) →
      resolvedMaxTokens b = 600) ∧
    ((b.top_p = none ∨ b.top_p = some .nan) → resolvedTopP b = 9 / 10) ∧
    (∀ q, b.temperature = some (.num q) →
      resolvedTemperature b = min (max q 0) 1) ∧
    (∀ q, b.max_tokens = some (.num q) →
      resolvedMaxTokens b = min (max q 32) 1024) ∧
    (∀ q, b.top_p = some (.num q) → resolvedTopP b = min (max q 0) 1) ∧
    (∀ b2 : StatelessBody, b2.temperature = b.temperature →
      resolvedTemperature b2 = resolvedTemperature b) ∧
    (∀ b2 : StatelessBody, b2.max_tokens = b.max_tokens →
      resolvedMaxTokens b2 = resolvedMaxTokens b) ∧
    (∀ b2 : StatelessBody, b2.top_p = b.top_p →
      resolvedTopP b2 = resolvedTopP b) := by
  refine ⟨clamp_getD_bounds _ _ _ _ (by norm_num) (by norm_num) (by norm_num),
    clamp_getD_bounds _ _ _ _ (by norm_num) (by norm_num) (by norm_num),
    clamp_getD_bounds _ _ _ _ (by norm_num) (by norm_num) (by norm_num),
    ?_, ?_, ?_, ?_, ?_, ?_, ?_, ?_, ?_⟩
  · rintro (h | h) <;> simp [resolvedTemperature, h, clamp]
  · rintro (h | h) <;> simp [resolvedMaxTokens, h, clamp]
  · rintro (h | h) <;> simp [resolvedTopP, h, clamp]
  · intro q hq
    simp [resolvedTemperature, hq, clamp]
  · intro q hq
    simp [resolvedMaxTokens, hq, clamp]
  · intro q hq
    simp [resolvedTopP, hq, clamp]
  · intro b2 h2
    simp [resolvedTemperature, h2]
  · intro b2 h2
    simp [resolvedMaxTokens, h2]
  · intro b2 h2
    simp [resolvedTopP, h2]

theorem override_resolution_witness :
    resolvedTemperature ⟨none, some .nan, some (.num 5000), some (.num (1 / 2))⟩ =
      3 / 10 ∧
    resolvedMaxTokens ⟨none, some .nan, some (.num 5000), some (.num (1 / 2))⟩ =
      min (max 5000 32) 1024 ∧
    resolvedTopP ⟨none, some .nan, some (.num 5000), some (.num (1 / 2))⟩ =
      min (max (1 / 2) 0) 1 := by
  obtain ⟨-, -, -, htemp, -, -, -, htok, htop, -, -, -⟩ :=
    override_resolution ⟨none, some .nan, some (.num 5000), some (.num (1 / 2))⟩
  exact ⟨htemp (Or.inr rfl), htok 5000 rfl, htop (1 / 2) rfl⟩

/-- C9: a POST /chat request whose sessionId is missing, or empty or
whitespace-only after trimming, is answered with a 400 JSON error and no
Chat Session instance is resolved or invoked. -/
theorem missing_sessionId_rejected (b : RouterBody) (doStatus : Nat)
    (doBody : ResponseBody)
    (hs : b.sessionId = none ∨ ∃ sid, b.sessionId = some sid ∧ jsTrim sid = "") :
    (handleChatRequest (some b) doStatus doBody).status = 400 ∧
    (handleChatRequest (some b) doStatus doBody).sessionResolved = false ∧
    ((handleChatRequest (some b) doStatus doBody).body =
        .jsonError "message is required." ∨
      (handleChatRequest (some b) doStatus doBody).body =
        .jsonError "sessionId is required.") := by
  have hsid : (b.sessionId.map jsTrim).getD "" = "" := by
    rcases hs with h | ⟨sid, h, ht⟩
    · simp [h]
    · simp [h, ht]
  by_cases hm : (b.message.map jsTrim).getD "" = ""
  · simp [handleChatRequest, hm]
  · simp [handleChatRequest, hm, hsid]

theorem missing_sessionId_rejected_witness :
    (handleChatRequest (some ⟨some "hello", some "  "⟩) 200
        (.streamBody ["x"])).status = 400 ∧
    (handleChatRequest (some ⟨some "hello", some "  "⟩) 200
        (.streamBody ["x"])).sessionResolved = false ∧
    ((handleChatRequest (some ⟨some "hello", some "  "⟩) 200
        (.streamBody ["x"])).body = .jsonError "message is required." ∨
      (handleChatRequest (some ⟨some "hello", some "  "⟩) 200
        (.streamBody ["x"])).body = .jsonError "sessionId is required.") :=
  missing_sessionId_rejected ⟨some "hello", some "  "⟩ 200 (.streamBody ["x"])
    (Or.inr ⟨"  ", rfl, by decide⟩)

theorem string_length_bne_zero (s : String) (h : s ≠ "") :
    (s.length != 0) = true := by
  cases s with
  | mk data =>
      cases data with
      | nil => simp [String.ext_iff] at h
      | cons c cs => simp [String.length]

/-- C10: normalization keeps exactly the messages whose content trims to a
non-empty string, in order, coercing every role other than the literal
assistant (including system, tool and absent roles) to user; and a request
whose messages all normalize away is rejected with status 400. -/
theorem normalize_messages_spec (ms : List ChatMessageIn) :
    normalizeMessages (some ms) = ms.filterMap (fun m =>
      if jsTrim (m.content.getD "") = "" then none
      else some ⟨if m.role = some "assistant" then .assistant else .user,
        jsTrim (m.content.getD "")⟩) ∧
    (∀ (body : StatelessBody) (aiText : Option String),
      normalizeMessages body.messages = [] →
      handleChat (some body) aiText = (400, none)) := by
  constructor
  · induction ms with
    | nil => simp [normalizeMessages]
    | cons m rest ih =>
        simp only [normalizeMessages] at ih ⊢
        simp only [normalizeRole] at ih ⊢
        rw [List.map_cons, List.filter_cons, List.filterMap_cons]
        by_cases hc : jsTrim (m.content.getD "") = ""
        · simp [hc, ih]
        · rw [string_length_bne_zero _ hc]
          simp [hc, ih]
  · intro body aiText hempty
    simp [handleChat, hempty]

theorem normalize_messages_spec_witness :
    normalizeMessages (some [⟨some "system", some "be nice"⟩,
        ⟨some "assistant", some " ok "⟩, ⟨none, some "  "⟩]) =
      ([⟨some "system", some "be nice"⟩, ⟨some "assistant", some " ok "⟩,
        ⟨none, some "  "⟩] : List ChatMessageIn).filterMap (fun m =>
        if jsTrim (m.content.getD "") = "" then none
        else some ⟨if m.role = some "assistant" then .assistant else .user,
          jsTrim (m.content.getD "")⟩) ∧
    handleChat (some ⟨some [⟨some "user", some "   "⟩], none, none, none⟩)
        (some "reply") = (400, none) := by
  obtain ⟨h1, h2⟩ := normalize_messages_spec [⟨some "system", some "be nice"⟩,
    ⟨some "assistant", some " ok "⟩, ⟨none, some "  "⟩]
  refine ⟨h1, ?_⟩
  exact (normalize_messages_spec []).2
    ⟨some [⟨some "user", some "   "⟩], none, none, none⟩ (some "reply") (by decide)

/-- C7 counterexample: with the default configuration and three retryable
503 responses before success, the client sleeps 1000, 2000 and 3000
milliseconds. The delays grow linearly by retryDelay * (attempt + 1); no
exponential schedule c * b ^ attempt with base b greater than 1 matches
them, so the backoff is not exponential as the claim states. -/
theorem backoff_not_exponential :
    defaultSend [.httpError 503, .httpError 503, .httpError 503, .ok] =
      .success [1000, 2000, 3000] ∧
    ¬ ∃ c b : ℚ, 1 < b ∧ (1000 : ℚ) = c * b ^ (0 : ℕ) ∧
      (2000 : ℚ) = c * b ^ (1 : ℕ) ∧ (3000 : ℚ) = c * b ^ (2 : ℕ) := by
  constructor
  · decide
  · rintro ⟨c, b, hb, h0, h1, h2⟩
    rw [pow_zero, mul_one] at h0
    subst h0
    rw [pow_one] at h1
    have hb2 : b = 2 := by linarith
    subst hb2
    norm_num at h2

/-- C7 amended: against a stubbed transport, the client retries retryable
HTTP statuses (500, 502, 503, 504 by default) and network-class errors,
sleeping the linearly growing delay retryDelay * (attempt + 1) before each
retry, until the retry budget maxRetries is spent, after which the failure
is terminal; an abort fired by the request timeout is never retried and
surfaces as the distinct terminal timeout error; a successful response ends
the loop at once. -/
theorem retry_loop_spec (maxRetries retryDelay : Nat) (codes : List Nat)
    (rest : List AttemptOutcome) (attempt : Nat) (lastStatus : Option Nat)
    (sleeps : List Nat) :
    (sendLoop maxRetries retryDelay codes true (.abortTimeout :: rest)
        attempt lastStatus sleeps = .timeoutError sleeps) ∧
    (∀ s, attempt < maxRetries → s ∈ codes → 0 < s →
      sendLoop maxRetries retryDelay codes true (.httpError s :: rest)
          attempt lastStatus sleeps =
        sendLoop maxRetries retryDelay codes true rest (attempt + 1) (some s)
          (sleeps ++ [retryDelay * (attempt + 1)])) ∧
    (attempt < maxRetries →
      sendLoop maxRetries retryDelay codes true (.networkError :: rest)
          attempt lastStatus sleeps =
        sendLoop maxRetries retryDelay codes true rest (attempt + 1)
          lastStatus (sleeps ++ [retryDelay * (attempt + 1)])) ∧
    (∀ s, maxRetries ≤ attempt →
      sendLoop maxRetries retryDelay codes true (.httpError s :: rest)
          attempt lastStatus sleeps = .httpFailure s sleeps) ∧
    (maxRetries ≤ attempt →
      sendLoop maxRetries retryDelay codes true (.networkError :: rest)
          attempt lastStatus sleeps = .networkFailure sleeps) ∧
    (sendLoop maxRetries retryDelay codes true (.ok :: rest) attempt
        lastStatus sleeps = .success sleeps) := by
  refine ⟨rfl, ?_, ?_, ?_, ?_, rfl⟩
  · intro s hlt hmem hpos
    have hretry : isRetryableError none (some s) codes true = true := by
      simp [isRetryableError]
      exact ⟨by omega, hmem⟩
    rw [sendLoop, if_pos ⟨hlt, hretry⟩]
  · intro hlt
    have hretry : isRetryableError (some .fetchTypeError) lastStatus codes
        true = true := by
      unfold isRetryableError
      by_cases h : ((lastStatus.getD 0 != 0) &&
          codes.contains (lastStatus.getD 0)) = true <;> simp [h]
    rw [sendLoop, if_pos ⟨hlt, hretry⟩]
  · intro s hle
    rw [sendLoop, if_neg]
    rintro ⟨h1, -⟩
    omega
  · intro hle
    rw [sendLoop, if_neg]
    rintro ⟨h1, -⟩
    omega

theorem retry_loop_spec_witness :
    sendLoop 3 1000 [500, 502, 503, 504] true [.abortTimeout, .ok] 0 none [] =
      .timeoutError [] ∧
    sendLoop 3 1000 [500, 502, 503, 504] true [.httpError 503, .ok] 0 none [] =
      sendLoop 3 1000 [500, 502, 503, 504] true [.ok] 1 (some 503)
        ([] ++ [1000 * (0 + 1)]) ∧
    sendLoop 3 1000 [500, 502, 503, 504] true [.networkError, .ok] 0 none [] =
      sendLoop 3 1000 [500, 502, 503, 504] true [.ok] 1 none
        ([] ++ [1000 * (0 + 1)]) ∧
    sendLoop 3 1000 [500, 502, 503, 504] true [.httpError 500, .ok] 3 none [] =
      .httpFailure 500 [] := by
  obtain ⟨habort, hhttp, hnet, -, -, -⟩ :=
    retry_loop_spec 3 1000 [500, 502, 503, 504] [.ok] 0 none []
  obtain ⟨-, -, -, hterm3, -, -⟩ :=
    retry_loop_spec 3 1000 [500, 502, 503, 504] [.ok] 3 none []
  exact ⟨habort, hhttp 503 (by decide) (by decide) (by decide),
    hnet (by decide), hterm3 500 (by decide)⟩

theorem saveHistory_bounded_fifo_witness :
    (saveHistory ⟨none, none⟩ (List.replicate 12 ⟨ChatRole.user, "m"⟩)).stored =
      some (trimHistory (List.replicate 12 ⟨ChatRole.user, "m"⟩)) ∧
    (trimHistory (List.replicate 12 ⟨ChatRole.user, "m"⟩)).length ≤
      HISTORY_LIMIT ∧
    (trimHistory (List.replicate 12 ⟨ChatRole.user, "m"⟩)).IsSuffix
      (List.replicate 12 ⟨ChatRole.user, "m"⟩) ∧
    trimHistory (List.replicate 3 ⟨ChatRole.user, "m"⟩) =
      List.replicate 3 ⟨ChatRole.user, "m"⟩ := by
  obtain ⟨h1, -, h3, h4, -⟩ :=
    saveHistory_bounded_fifo ⟨none, none⟩ (List.replicate 12 ⟨ChatRole.user, "m"⟩)
  obtain ⟨-, -, -, -, h5⟩ :=
    saveHistory_bounded_fifo ⟨none, none⟩ (List.replicate 3 ⟨ChatRole.user, "m"⟩)
  exact ⟨h1, h3, h4, h5 (by decide)⟩

end DevOpsAssistant
